import Mathlib

/-!
Verification of the MidoNet Neutron plugin
(src/neutron/plugins/midonet/plugin.py) against its natural-language
specification.  The Python source is shallowly embedded: module-level
constants and pure name-derivation helpers become Lean definitions,
chain mutation through the remote controller becomes explicit list
manipulation, and the controller-facing state mutated by the floating-IP
and security-group operations becomes an explicit state record threaded
through the operations.  Remote failures are modelled by explicit
failure flags, and each mutating operation additionally returns the
trace of remote calls it issued where a claim is about those effects.
-/

/-! ## Generic list helpers (used by the chain embedding and the name proofs) -/

/-- Insert an element before index `n` (0-based); if `n` is past the end the
element is appended.  This is the primitive behind MidoNet rule insertion at
a 1-based `position`. -/
def insertAt {α : Type} : Nat → α → List α → List α
  | 0, r, xs => r :: xs
  | _ + 1, r, [] => [r]
  | n + 1, r, x :: xs => x :: insertAt n r xs

/-! ## ResourceMapper: deterministic name derivation (plugin.py lines 61-132)

The Python templates substitute the id with the percent operator; the
substitution is inlined here (each template has one `%s` placeholder). -/

def METADATA_DEFAULT_IP : String := "169.254.169.254/32"

def OS_FLOATING_IP_RULE_KEY : String := "OS_FLOATING_IP"

def OS_SG_RULE_KEY : String := "OS_SG_RULE_ID"

def OS_TENANT_ROUTER_RULE_KEY : String := "OS_TENANT_ROUTER_RULE"

def SNAT_RULE : String := "SNAT"

def ETHERTYPE_ARP : Nat := 0x0806

def ETHERTYPE_IPV4 : Nat := 0x0800

def ETHERTYPE_IPV6 : Nat := 0x86dd

/-- Result of `_nat_chain_names`: the dict with keys pre-routing, post-routing. -/
structure NatChainNames where
  preRouting : String
  postRouting : String
  deriving DecidableEq, Repr

/-- Embeds `_nat_chain_names(router_id)`: substitutes the router id into
`OS_PRE_ROUTING_%s` and `OS_POST_ROUTING_%s`. -/
def nat_chain_names (router_id : String) : NatChainNames :=
  { preRouting := "OS_PRE_ROUTING_" ++ router_id
    postRouting := "OS_POST_ROUTING_" ++ router_id }

/-- Result of `_sg_chain_names`: the dict with keys ingress, egress. -/
structure SgChainNames where
  ingress : String
  egress : String
  deriving DecidableEq, Repr

/-- Embeds `_sg_chain_names(sg_id)`: substitutes the security-group id into
`OS_SG_%s_INGRESS` and `OS_SG_%s_EGRESS`. -/
def sg_chain_names (sg_id : String) : SgChainNames :=
  { ingress := "OS_SG_" ++ sg_id ++ "_INGRESS"
    egress := "OS_SG_" ++ sg_id ++ "_EGRESS" }

/-- Result of `_port_chain_names`: the dict with keys inbound, outbound. -/
structure PortChainNames where
  inbound : String
  outbound : String
  deriving DecidableEq, Repr

/-- Embeds `_port_chain_names(port_id)`: substitutes the port id into
`OS_PORT_%s_INBOUND` and `OS_PORT_%s_OUTBOUND`. -/
def port_chain_names (port_id : String) : PortChainNames :=
  { inbound := "OS_PORT_" ++ port_id ++ "_INBOUND"
    outbound := "OS_PORT_" ++ port_id ++ "_OUTBOUND" }

/-- Embeds `_sg_ip_addr_group_name(sg_id)`: substitutes the security-group id
into `OS_IPG_%s`. -/
def sg_ip_addr_group_name (sg_id : String) : String :=
  "OS_IPG_" ++ sg_id

/-- The seven naming roles the plugin derives controller-side names for. -/
inductive Role
  | natPreRouting
  | natPostRouting
  | sgIngress
  | sgEgress
  | portInbound
  | portOutbound
  | sgIpAddrGroup
  deriving DecidableEq, Repr

/-- The single name-derivation entry point over all roles, projecting the
per-role functions of the source. -/
def nameFor : Role → String → String
  | .natPreRouting, i => (nat_chain_names i).preRouting
  | .natPostRouting, i => (nat_chain_names i).postRouting
  | .sgIngress, i => (sg_chain_names i).ingress
  | .sgEgress, i => (sg_chain_names i).egress
  | .portInbound, i => (port_chain_names i).inbound
  | .portOutbound, i => (port_chain_names i).outbound
  | .sgIpAddrGroup, i => sg_ip_addr_group_name i

/-- The fixed left part of the template for each role, as a character list. -/
def rolePre : Role → List Char
  | .natPreRouting => "OS_PRE_ROUTING_".data
  | .natPostRouting => "OS_POST_ROUTING_".data
  | .sgIngress => "OS_SG_".data
  | .sgEgress => "OS_SG_".data
  | .portInbound => "OS_PORT_".data
  | .portOutbound => "OS_PORT_".data
  | .sgIpAddrGroup => "OS_IPG_".data

/-- The fixed right part of the template for each role, as a character list. -/
def roleSuf : Role → List Char
  | .natPreRouting => []
  | .natPostRouting => []
  | .sgIngress => "_INGRESS".data
  | .sgEgress => "_EGRESS".data
  | .portInbound => "_INBOUND".data
  | .portOutbound => "_OUTBOUND".data
  | .sgIpAddrGroup => []

/-! ## ChainRuleBuilder: the rule record and `_add_chain_rule`
(plugin.py lines 1498-1526)

A MidoNet chain is an ordered list of rules; the chain mutation performed
through the remote client is embedded as pure list manipulation.  The keyword
arguments accepted by `_add_chain_rule` become the fields of `ChainRuleArgs`
(each defaulting to absent, as an omitted Python keyword argument), and the
rule record the client builds from them becomes `Rule`. -/

/-- The keyword arguments of a `_add_chain_rule` call (the union of the kwargs
used at the call sites of plugin.py), minus `position`, which is passed
separately to the client. -/
structure ChainRuleArgs where
  action : String
  dlType : Option Nat := none
  invDlType : Bool := false
  matchReturnFlow : Bool := false
  matchForwardFlow : Bool := false
  dlSrc : Option String := none
  invDlSrc : Bool := false
  srcAddr : Option String := none
  dstAddr : Option String := none
  invNwSrc : Bool := false
  jumpChainId : Option String := none
  jumpChainName : Option String := none
  properties : List (String × String) := []
  ipAddrGroupSrc : Option String := none
  ipAddrGroupDst : Option String := none
  srcPortFrom : Option Nat := none
  srcPortTo : Option Nat := none
  dstPortFrom : Option Nat := none
  dstPortTo : Option Nat := none
  nwProto : Option Nat := none
  deriving DecidableEq, Repr

/-- A chain rule as handed to the MidoNet client after `_add_chain_rule` has
converted the address and port keyword arguments. -/
structure Rule where
  action : String
  dlType : Option Nat := none
  invDlType : Bool := false
  matchReturnFlow : Bool := false
  matchForwardFlow : Bool := false
  dlSrc : Option String := none
  invDlSrc : Bool := false
  invNwSrc : Bool := false
  jumpChainId : Option String := none
  jumpChainName : Option String := none
  properties : List (String × String) := []
  ipAddrGroupSrc : Option String := none
  ipAddrGroupDst : Option String := none
  nwSrcAddr : Option String := none
  nwSrcLength : Option Nat := none
  nwDstAddr : Option String := none
  nwDstLength : Option Nat := none
  tpSrc : Option Nat × Option Nat := (none, none)
  tpDst : Option Nat × Option Nat := (none, none)
  nwProto : Option Nat := none
  deriving DecidableEq, Repr

/-- Decimal reading of a digit list, used by the modelled `net_addr`. -/
def parseNatChars (l : List Char) : Nat :=
  l.foldl (fun n c => n * 10 + (c.toNat - 48)) 0

/-- Modelled from the spec: `net_util.net_addr` (module
neutron/plugins/midonet/common/net_util.py, not part of the given sources)
splits a CIDR string such as `10.0.0.2/32` into the network address and the
numeric length.  Routes and rules carry source and destination as
network+length per the external-interface description. -/
def net_addr (cidr : String) : String × Nat :=
  let addr := cidr.data.takeWhile (fun c => c ≠ '/')
  let len := (cidr.data.dropWhile (fun c => c ≠ '/')).drop 1
  (String.mk addr, parseNatChars len)

/-- The body of `_add_chain_rule` up to the client call: converts `src_addr`
and `dst_addr` through `net_addr`, always sets the transport-port ranges, and
for ICMP (protocol value 1) collapses both ranges to single values, the source
from its start and the destination from its end. -/
def mk_chain_rule (a : ChainRuleArgs) : Rule :=
  let nwSrc : Option String × Option Nat :=
    (a.srcAddr.map (fun s => (net_addr s).1), a.srcAddr.map (fun s => (net_addr s).2))
  let nwDst : Option String × Option Nat :=
    (a.dstAddr.map (fun s => (net_addr s).1), a.dstAddr.map (fun s => (net_addr s).2))
  let tpSrc := (a.srcPortFrom, a.srcPortTo)
  let tpDst := (a.dstPortFrom, a.dstPortTo)
  let tpSrc := if a.nwProto = some 1 then (a.srcPortFrom, a.srcPortFrom) else tpSrc
  let tpDst := if a.nwProto = some 1 then (a.dstPortTo, a.dstPortTo) else tpDst
  { action := a.action
    dlType := a.dlType
    invDlType := a.invDlType
    matchReturnFlow := a.matchReturnFlow
    matchForwardFlow := a.matchForwardFlow
    dlSrc := a.dlSrc
    invDlSrc := a.invDlSrc
    invNwSrc := a.invNwSrc
    jumpChainId := a.jumpChainId
    jumpChainName := a.jumpChainName
    properties := a.properties
    ipAddrGroupSrc := a.ipAddrGroupSrc
    ipAddrGroupDst := a.ipAddrGroupDst
    nwSrcAddr := nwSrc.1
    nwSrcLength := nwSrc.2
    nwDstAddr := nwDst.1
    nwDstLength := nwDst.2
    tpSrc := tpSrc
    tpDst := tpDst
    nwProto := a.nwProto }

/-- Modelled from the spec: `MidoClient.add_chain_rule` (midonet_lib, not part
of the given sources) creates the rule in the chain at the given 1-based
position; the plugin comments state that inserting at position 1 inserts at
the beginning and pushes all rules back, and rule creation without an explicit
position takes the default position 1. -/
def add_chain_rule (chain : List Rule) (a : ChainRuleArgs) (position : Option Nat) :
    List Rule :=
  insertAt ((position.getD 1) - 1) (mk_chain_rule a) chain

/-! ## Port chain initialization (plugin.py lines 292-406) -/

/-- The fields of a Neutron fixed-ip entry used by the plugin. -/
structure FixedIp where
  subnetId : String
  ipAddress : String
  deriving DecidableEq, Repr

/-- The fields of a Neutron subnet used by the embedded operations. -/
structure Subnet where
  ipVersion : Nat := 4
  cidr : String := ""
  gatewayIp : String := ""
  networkId : String := ""
  enableDhcp : Bool := true
  deriving DecidableEq, Repr

/-- The fields of a Neutron port used by the chain-building operations. -/
structure Port where
  id : String := ""
  tenantId : String := ""
  macAddress : String := ""
  fixedIps : List FixedIp := []
  securityGroups : List String := []
  deriving DecidableEq, Repr

/-- The database context: resolves a subnet id, as `self._get_subnet` does. -/
structure Ctx where
  getSubnet : String → Subnet

/-- A MidoNet chain object as returned by `get_chain_by_name`: the plugin only
reads its id and name when building jump rules. -/
structure MChain where
  id : String
  name : String
  deriving DecidableEq, Repr

/-- The argument record of the terminal drop rule: drop everything whose
ethertype is not ARP (`action=drop, dl_type=ARP, inv_dl_type=True`). -/
def drop_non_arp_args : ChainRuleArgs :=
  { action := "drop", dlType := some ETHERTYPE_ARP, invDlType := true }

/-- The argument record of the reverse-flow accept rule
(`action=accept, match_return_flow=True`). -/
def return_flow_args : ChainRuleArgs :=
  { action := "accept", matchReturnFlow := true }

/-- The argument record of the MAC anti-spoofing rule
(`action=drop, dl_src=mac, inv_dl_src=True`). -/
def mac_spoof_args (mac : String) : ChainRuleArgs :=
  { action := "drop", dlSrc := some mac, invDlSrc := true }

/-- The argument record of the IP anti-spoofing rule for one fixed ip: the
subnet ip version selects the /128 IPv6 or the /32 IPv4 form. -/
def ip_spoof_args (ctx : Ctx) (fip : FixedIp) : ChainRuleArgs :=
  if (ctx.getSubnet fip.subnetId).ipVersion = 6 then
    { action := "drop", srcAddr := some (fip.ipAddress ++ "/128"),
      invNwSrc := true, dlType := some ETHERTYPE_IPV6 }
  else
    { action := "drop", srcAddr := some (fip.ipAddress ++ "/32"),
      invNwSrc := true, dlType := some ETHERTYPE_IPV4 }

/-- The argument record of a jump rule into a security-group chain. -/
def jump_args (sgChain : MChain) : ChainRuleArgs :=
  { action := "jump", jumpChainId := some sgChain.id,
    jumpChainName := some sgChain.name }

/-- Embeds `_add_sg_jumps_to_port_chains`: inserts a jump from the inbound port
chain to the egress security-group chain and from the outbound port chain to
the ingress security-group chain, each at position `len(port_chain.get_rules())`
of the chain at that moment. -/
def add_sg_jumps_to_port_chains (portInbound portOutbound : List Rule)
    (sgEgress sgIngress : MChain) : List Rule × List Rule :=
  let portInbound := add_chain_rule portInbound (jump_args sgEgress)
    (some portInbound.length)
  let portOutbound := add_chain_rule portOutbound (jump_args sgIngress)
    (some portOutbound.length)
  (portInbound, portOutbound)

/-- Embeds `_initialize_port_chains`: mirrors the source statement for
statement.  `sgChainsOf` stands for `_get_sg_chains`, returning the pair
(egress chain, ingress chain) of a security-group id. -/
def initialize_port_chains (ctx : Ctx) (port : Port)
    (inChain outChain : List Rule) (sgIds : List String)
    (sgChainsOf : String → MChain × MChain) : List Rule × List Rule :=
  let inChain := add_chain_rule inChain drop_non_arp_args (some 1)
  let outChain := add_chain_rule outChain drop_non_arp_args (some 1)
  let inChain := add_chain_rule inChain return_flow_args (some 1)
  let inChain := add_chain_rule inChain (mac_spoof_args port.macAddress) (some 1)
  let inChain := port.fixedIps.foldl
    (fun c fip => add_chain_rule c (ip_spoof_args ctx fip) (some 1)) inChain
  let outChain := add_chain_rule outChain return_flow_args (some 1)
  sgIds.foldl
    (fun p sgId =>
      add_sg_jumps_to_port_chains p.1 p.2 (sgChainsOf sgId).1 (sgChainsOf sgId).2)
    (inChain, outChain)

/-! ## Security-group rule translation (plugin.py lines 444-478) -/

/-- The fields of a logical security-group rule used by the translation.  The
protocol and ethertype are carried as their numeric values (the string-to-value
maps live in net_util, outside the given sources). -/
structure SgRule where
  id : String
  tenantId : String := ""
  securityGroupId : String := ""
  direction : String := "ingress"
  remoteGroupId : Option String := none
  remoteIpPrefix : Option String := none
  portRangeMin : Option Nat := none
  portRangeMax : Option Nat := none
  protocol : Option Nat := none
  ethertype : Option Nat := none
  deriving DecidableEq, Repr

/-- Modelled from the spec: `net_util.get_protocol_value` (not part of the
given sources) maps a logical protocol to its numeric value (e.g. TCP to 6,
ICMP to 1); rules here already carry the numeric value, so the map is the
identity on it. -/
def get_protocol_value (p : Option Nat) : Option Nat := p

/-- Modelled from the spec: `net_util.get_ethertype_value` (not part of the
given sources) maps a logical ethertype to its numeric value; rules here
already carry the numeric value. -/
def get_ethertype_value (e : Option Nat) : Option Nat := e

/-- Dictionary access `_sg_chain_names(sg_id)[direction]`. -/
def SgChainNames.byDirection (n : SgChainNames) (direction : String) : Option String :=
  if direction = "ingress" then some n.ingress
  else if direction = "egress" then some n.egress
  else none

/-- The chain the accept rule is created in: line 447 of the source. -/
def accept_chain_name (r : SgRule) : Option String :=
  (sg_chain_names r.securityGroupId).byDirection r.direction

/-- The keyword arguments built by `_create_accept_chain_rule`: for egress the
remote group and prefix go to the destination side and forward-flow matching is
set; otherwise (ingress) they go to the source side and forward-flow matching
is not set.  The rule is tagged with the property `OS_SG_RULE_ID` mapped to
the logical rule id. -/
def accept_rule_args (r : SgRule) : ChainRuleArgs :=
  if r.direction = "egress" then
    { action := "accept", properties := [(OS_SG_RULE_KEY, r.id)],
      matchForwardFlow := true,
      ipAddrGroupDst := r.remoteGroupId, dstAddr := r.remoteIpPrefix,
      dstPortFrom := r.portRangeMin, dstPortTo := r.portRangeMax,
      nwProto := get_protocol_value r.protocol,
      dlType := get_ethertype_value r.ethertype }
  else
    { action := "accept", properties := [(OS_SG_RULE_KEY, r.id)],
      matchForwardFlow := false,
      ipAddrGroupSrc := r.remoteGroupId, srcAddr := r.remoteIpPrefix,
      dstPortFrom := r.portRangeMin, dstPortTo := r.portRangeMax,
      nwProto := get_protocol_value r.protocol,
      dlType := get_ethertype_value r.ethertype }

/-- Embeds `_create_accept_chain_rule` acting on a given chain: returns the
created rule (as the source returns the client rule) and the updated chain. -/
def create_accept_chain_rule (r : SgRule) (chain : List Rule) : Rule × List Rule :=
  (mk_chain_rule (accept_rule_args r), add_chain_rule chain (accept_rule_args r) none)

/-! ## Bulk security-group rule creation (plugin.py lines 1442-1472) -/

/-- One remote call issued during `create_security_group_rule_bulk`. -/
inductive BulkEffect
  | createAcceptRule (sgRuleId : String)
  | removeChainRule (id : String)
  deriving DecidableEq, Repr

/-- The loop body of `create_security_group_rule_bulk`: the counter `i` is
incremented before the creation attempt; after a successful creation the code
calls `remove_chain_rule(rules[j].id)` for every `j < i`, and the exception
handler performs the same removals before re-raising.  `createFails` tells
which rule ids fail remotely; the first component of the result is the id of
the rule whose creation raised (propagated to the caller), `none` when the
loop completes. -/
def bulk_loop (createFails : String → Bool) (allRules : List SgRule) :
    Nat → List SgRule → List BulkEffect → Option String × List BulkEffect
  | _, [], effs => (none, effs)
  | i, r :: rest, effs =>
    let i := i + 1
    if createFails r.id then
      (some r.id,
       effs ++ ((allRules.take i).map (fun q => BulkEffect.removeChainRule q.id)))
    else
      bulk_loop createFails allRules i rest
        (effs ++ [BulkEffect.createAcceptRule r.id]
          ++ ((allRules.take i).map (fun q => BulkEffect.removeChainRule q.id)))

/-- Embeds the remote-call behaviour of `create_security_group_rule_bulk` over
the rules returned by the local bulk insert. -/
def create_security_group_rule_bulk (rules : List SgRule)
    (createFails : String → Bool) : Option String × List BulkEffect :=
  bulk_loop createFails rules 0 rules []

/-! ## Security-group deletion (plugin.py lines 1410-1435) -/

/-- The fields of a stored security group used by deletion. -/
structure SecurityGroupRec where
  id : String
  name : String := ""
  tenantId : String := ""
  deriving DecidableEq, Repr

/-- The errors `delete_security_group` can raise. -/
inductive SgDeleteError
  | securityGroupNotFound
  | securityGroupCannotRemoveDefault
  | securityGroupInUse
  deriving DecidableEq, Repr

/-- The controller-side objects touched by security-group deletion. -/
structure SgState where
  chains : List String
  ipAddrGroups : List String
  deriving DecidableEq, Repr

/-- Embeds `delete_security_group`: looks up the group, refuses to delete the
default group for a non-admin caller, raises in-use when any port binding
references the group, and only then deletes the two chains by name and the IP
address group.  An error leaves the controller state unchanged. -/
def delete_security_group (sg : Option SecurityGroupRec) (isAdmin : Bool)
    (bindings : List String) (st : SgState) : Option SgDeleteError × SgState :=
  match sg with
  | none => (some SgDeleteError.securityGroupNotFound, st)
  | some sg =>
    if sg.name = "default" ∧ isAdmin = false then
      (some SgDeleteError.securityGroupCannotRemoveDefault, st)
    else if bindings ≠ [] then
      (some SgDeleteError.securityGroupInUse, st)
    else
      let names := sg_chain_names sg.id
      let st1 : SgState :=
        { st with chains :=
            st.chains.filter (fun c => ¬ (c = names.ingress ∨ c = names.egress)) }
      let st2 : SgState :=
        { st1 with ipAddrGroups := st1.ipAddrGroups.filter (fun g => g ≠ sg.id) }
      (none, st2)

/-! ## Floating-IP association state machine (plugin.py lines 1277-1342,
1082-1104, 480-489)

The controller-side state the floating-IP operations read and write: the
provider-router route table and the NAT chains, the latter as a map from chain
name to its ordered rule list. -/

/-- The fields of a floating-IP record used by the plugin. -/
structure Fip where
  id : String
  floatingIpAddress : String
  fixedIpAddress : String
  routerId : String
  portId : Option String := none
  deriving DecidableEq, Repr

/-- A MidoNet route record, per the external-interface description. -/
structure MRoute where
  rtype : String
  srcAddr : String
  srcLen : Nat
  dstAddr : String
  dstLen : Nat
  nextHopPort : Option String := none
  nextHopGateway : Option String := none
  weight : Option Nat := none
  deriving DecidableEq, Repr

/-- A NAT rule as installed by `add_static_nat`, with its property tags. -/
structure NatRuleRec where
  natType : String
  srcIp : String
  targetIp : String
  portId : String
  props : List (String × String)
  deriving DecidableEq, Repr

/-- The controller-side state touched by the floating-IP operations. -/
structure MidoState where
  providerRoutes : List MRoute
  chains : String → List NatRuleRec

/-- The ambient controller topology: resolves the provider-side link port of a
device and its peer, as `get_link_port` does. -/
structure Env where
  linkPortId : String → String
  linkPortPeerId : String → String

/-- Whether a rule carries the given property key mapped to the given value. -/
def prop_is (key value : String) (r : NatRuleRec) : Bool :=
  r.props.lookup key == some value

/-- Embeds `_add_route_to_provider`: adds a Normal /32 route for the address
on the provider router, next hop the peer of the link port of the device. -/
def add_route_to_provider (env : Env) (deviceId ip : String) (st : MidoState) :
    MidoState :=
  { st with providerRoutes := st.providerRoutes ++
      [{ rtype := "Normal", srcAddr := "0.0.0.0", srcLen := 0,
         dstAddr := ip, dstLen := 32,
         nextHopPort := some (env.linkPortPeerId deviceId), weight := some 100 }] }

/-- Embeds `_remove_route_from_provider`: deletes every provider-router route
whose destination is the given address with length 32. -/
def remove_route_from_provider (ip : String) (st : MidoState) : MidoState :=
  { st with providerRoutes :=
      st.providerRoutes.filter (fun r => ! (r.dstAddr == ip && r.dstLen == 32)) }

/-- Modelled from the spec: `MidoClient.remove_static_route` (midonet_lib, not
part of the given sources) removes the provider-router route(s) to the given
address; disassociation removes the provider-router route for the floating
address. -/
def remove_static_route (ip : String) (st : MidoState) : MidoState :=
  { st with providerRoutes :=
      st.providerRoutes.filter (fun r => ! (r.dstAddr == ip)) }

/-- Modelled from the spec: `MidoClient.remove_rules_by_property` (midonet_lib,
not part of the given sources) removes from the named chain every rule whose
property map carries the key mapped to the value. -/
def remove_rules_by_property (chainName key value : String) (st : MidoState) :
    MidoState :=
  { st with chains := fun n =>
      if n = chainName then
        (st.chains chainName).filter (fun r => ! prop_is key value r)
      else st.chains n }

/-- Modelled from the spec: `MidoClient.add_static_nat` (midonet_lib, not part
of the given sources) installs one NAT rule of the given type in the named
chain, carrying the given property tags. -/
def add_static_nat (chainName srcIp targetIp portId natType : String)
    (props : List (String × String)) (st : MidoState) : MidoState :=
  { st with chains := fun n =>
      if n = chainName then
        st.chains chainName ++
          [{ natType := natType, srcIp := srcIp, targetIp := targetIp,
             portId := portId, props := props }]
      else st.chains n }

/-- Embeds `_remove_nat_rules`: removes the provider route to the floating
address and removes, from both NAT chains of the router of the floating IP,
every rule tagged `OS_FLOATING_IP` with the floating-IP id. -/
def remove_nat_rules (fip : Fip) (st : MidoState) : MidoState :=
  let st := remove_static_route fip.floatingIpAddress st
  let names := nat_chain_names fip.routerId
  let st := remove_rules_by_property names.preRouting OS_FLOATING_IP_RULE_KEY fip.id st
  remove_rules_by_property names.postRouting OS_FLOATING_IP_RULE_KEY fip.id st

/-- Embeds `_disassoc_fip`. -/
def disassoc_fip (fip : Fip) (st : MidoState) : MidoState :=
  remove_nat_rules fip (remove_route_from_provider fip.floatingIpAddress st)

/-- The DNAT rule `_add_nat_rules` installs in the pre-routing chain:
`_get_nat_ips` maps pre-routing to (floating, fixed). -/
def dnat_rule (env : Env) (fip : Fip) : NatRuleRec :=
  { natType := "dnat", srcIp := fip.floatingIpAddress,
    targetIp := fip.fixedIpAddress, portId := env.linkPortId fip.routerId,
    props := [(OS_FLOATING_IP_RULE_KEY, fip.id)] }

/-- The SNAT rule `_add_nat_rules` installs in the post-routing chain:
`_get_nat_ips` maps post-routing to (fixed, floating). -/
def snat_rule (env : Env) (fip : Fip) : NatRuleRec :=
  { natType := "snat", srcIp := fip.fixedIpAddress,
    targetIp := fip.floatingIpAddress, portId := env.linkPortId fip.routerId,
    props := [(OS_FLOATING_IP_RULE_KEY, fip.id)] }

/-- Embeds `_add_nat_rules`: one tagged NAT rule per chain of the router. -/
def add_nat_rules (env : Env) (fip : Fip) (st : MidoState) : MidoState :=
  let names := nat_chain_names fip.routerId
  let st := add_static_nat names.preRouting fip.floatingIpAddress
    fip.fixedIpAddress (env.linkPortId fip.routerId) "dnat"
    [(OS_FLOATING_IP_RULE_KEY, fip.id)] st
  add_static_nat names.postRouting fip.fixedIpAddress
    fip.floatingIpAddress (env.linkPortId fip.routerId) "snat"
    [(OS_FLOATING_IP_RULE_KEY, fip.id)] st

/-- The provider-router route `_assoc_fip` installs for the floating address
(through `_add_route_to_provider` with the router of the floating IP as the
linked device). -/
def fip_route (env : Env) (fip : Fip) : MRoute :=
  { rtype := "Normal", srcAddr := "0.0.0.0", srcLen := 0,
    dstAddr := fip.floatingIpAddress, dstLen := 32,
    nextHopPort := some (env.linkPortPeerId fip.routerId), weight := some 100 }

/-- Embeds `_assoc_fip`: provider route to the floating address, then the NAT
rule pair. -/
def assoc_fip (env : Env) (fip : Fip) (st : MidoState) : MidoState :=
  add_nat_rules env fip (add_route_to_provider env fip.routerId fip.floatingIpAddress st)

/-- Embeds the controller-side dispatch of `update_floatingip` (lines
1325-1338): disassociate when the port association is removed, associate when
one is added, disassociate-then-associate when the bound port changes, and do
nothing when it does not. -/
def update_floatingip (env : Env) (oldFip newFip : Fip) (st : MidoState) :
    MidoState :=
  match oldFip.portId, newFip.portId with
  | some _, none => disassoc_fip oldFip st
  | none, some _ => assoc_fip env newFip st
  | some po, some pn =>
    if po = pn then st else assoc_fip env newFip (disassoc_fip oldFip st)
  | none, none => st

/-- Number of rules in the named chain tagged `OS_FLOATING_IP` with the id. -/
def nat_count (st : MidoState) (chainName fid : String) : Nat :=
  (st.chains chainName).countP (prop_is OS_FLOATING_IP_RULE_KEY fid)

/-- Number of tagged DNAT rules in the named chain. -/
def dnat_count (st : MidoState) (chainName fid : String) : Nat :=
  (st.chains chainName).countP
    (fun r => prop_is OS_FLOATING_IP_RULE_KEY fid r && r.natType == "dnat")

/-- Number of tagged SNAT rules in the named chain. -/
def snat_count (st : MidoState) (chainName fid : String) : Nat :=
  (st.chains chainName).countP
    (fun r => prop_is OS_FLOATING_IP_RULE_KEY fid r && r.natType == "snat")

/-- Number of provider-router /32 routes to the given address. -/
def fip_route_count (st : MidoState) (addr : String) : Nat :=
  st.providerRoutes.countP (fun r => r.dstAddr == addr && r.dstLen == 32)

/-! ## Router creation error paths (plugin.py lines 881-948) -/

/-- The error a `create_router` caller can receive: a remote controller error
from a named call, or the router-not-found error of the local lookup. -/
inductive CrError
  | remote (op : String)
  | routerNotFound (routerId : String)
  deriving DecidableEq, Repr

/-- A remote call completed during `create_router`. -/
inductive CrEffect
  | createMidoRouter (id : String)
  | addRouterChains (id : String)
  | dbAddRouter (id : String)
  | setUpGateway (id : String)
  | deleteMidoRouter (id : String)
  deriving DecidableEq, Repr

/-- The original error raised by a failing `add_router_chains` call. -/
def chain_creation_error : CrError := CrError.remote "add_router_chains"

/-- The original error raised by a failing `_set_up_gateway` call. -/
def gateway_setup_error : CrError := CrError.remote "set_up_gateway"

/-- Embeds the error handling of `create_router`.  `db` is the set of router
ids already present in the local store; the row for the new router is only
inserted in the second try block, after the chains were created.  When chain
creation fails, the handler catches the error and loads the router row to mark
its status — but the row does not exist yet, so the lookup raises
router-not-found, which propagates instead of the original error.  When
gateway setup fails after the row insert, the handler deletes the MidoNet
router and re-raises the original error. -/
def create_router (midoRouterId : String) (db : List String) (hasGwInfo : Bool)
    (chainsFail : Bool) (gwFail : Bool) : Except CrError String × List CrEffect :=
  let effs := [CrEffect.createMidoRouter midoRouterId]
  if chainsFail then
    if midoRouterId ∈ db then (Except.ok midoRouterId, effs)
    else (Except.error (CrError.routerNotFound midoRouterId), effs)
  else
    let effs := effs ++ [CrEffect.addRouterChains midoRouterId]
    if hasGwInfo then
      if gwFail then
        (Except.error gateway_setup_error,
         effs ++ [CrEffect.dbAddRouter midoRouterId,
                  CrEffect.deleteMidoRouter midoRouterId])
      else
        (Except.ok midoRouterId,
         effs ++ [CrEffect.dbAddRouter midoRouterId,
                  CrEffect.setUpGateway midoRouterId])
    else
      (Except.ok midoRouterId, effs ++ [CrEffect.dbAddRouter midoRouterId])

/-! ## Bounded DHCP retry and router-interface linking (plugin.py lines
1205-1275, 1168-1194) -/

/-- The loop of the `retryloop` decorator: calls the wrapped function up to
`n` more times starting at call index `i`, sleeping `delay` seconds after each
call that returns no value, and returning the first value seen together with
the number of calls made. -/
def retry_go {α : Type} (delay : Nat) (f : Nat → Option α) :
    Nat → Nat → Nat → Option α × Nat
  | 0, _, calls => (none, calls)
  | n + 1, i, calls =>
    match f i with
    | none => retry_go delay f n (i + 1) (calls + 1)
    | some v => (some v, calls + 1)

/-- Embeds `retryloop(attempts, delay)` applied to a query function. -/
def retryloop {α : Type} (attempts delay : Nat) (f : Nat → Option α) :
    Option α × Nat :=
  retry_go delay f attempts 0 0

/-- The attempts argument of the decorator on `_get_dhcp_port_ip`. -/
def DHCP_RETRY_ATTEMPTS : Nat := 5

/-- The delay argument of the decorator on `_get_dhcp_port_ip`. -/
def DHCP_RETRY_DELAY : Nat := 1

/-- Embeds `_get_dhcp_port_ip` under its `retryloop(5, 1)` decorator; `f`
stands for one execution of the DHCP-port query at a given attempt index. -/
def get_dhcp_port_ip (f : Nat → Option String) : Option String × Nat :=
  retryloop DHCP_RETRY_ATTEMPTS DHCP_RETRY_DELAY f

/-- One step of `add_router_interface` and `_link_bridge_to_router` as a
remote effect (plus the warning log). -/
inductive AriEffect
  | warnNoDhcpPort
  | addRouterPort
  | linkPort
  | addSubnetRoute
  | addMetadataRoute
  deriving DecidableEq, Repr

/-- Embeds `_link_bridge_to_router`: router port, link, subnet route, and the
metadata route only when the DHCP-port address is known. -/
def link_bridge_to_router (metadataGwIp : Option String) : List AriEffect :=
  [AriEffect.addRouterPort, AriEffect.linkPort, AriEffect.addSubnetRoute] ++
    (match metadataGwIp with
     | some _ => [AriEffect.addMetadataRoute]
     | none => [])

/-- Embeds the linking phase of `add_router_interface`: polls for the DHCP
port address, warns when it never appeared, and performs the linking either
way.  The Bool records that the operation completes (returns its info). -/
def add_router_interface (f : Nat → Option String) : Bool × List AriEffect :=
  let mgw := (get_dhcp_port_ip f).1
  let warn := if mgw.isNone then [AriEffect.warnNoDhcpPort]
    else ([] : List AriEffect)
  (true, warn ++ link_bridge_to_router mgw)

/-! ## Concrete inputs used by counterexamples and witnesses -/

/-- A database context with one IPv4 subnet behind every id. -/
def ctx0 : Ctx := ⟨fun _ => {}⟩

/-- A concrete VIF port with one fixed IPv4 address and one security group. -/
def port0 : Port :=
  { id := "p1", tenantId := "t1", macAddress := "fa:16:3e:00:00:01",
    fixedIps := [⟨"s1", "10.0.0.2"⟩], securityGroups := ["sg1"] }

/-- A concrete resolver of security-group chains by id. -/
def sgch0 : String → MChain × MChain := fun s =>
  (⟨"ce-" ++ s, (sg_chain_names s).egress⟩, ⟨"ci-" ++ s, (sg_chain_names s).ingress⟩)

/-- A concrete egress security-group rule. -/
def sgRuleEg0 : SgRule :=
  { id := "sgr-eg", securityGroupId := "sg1", direction := "egress",
    remoteIpPrefix := some "0.0.0.0/0", protocol := some 6,
    portRangeMin := some 22, portRangeMax := some 22 }

/-- A concrete ingress security-group rule. -/
def sgRuleIn0 : SgRule :=
  { id := "sgr-in", securityGroupId := "sg1", direction := "ingress",
    remoteGroupId := some "rg1", protocol := some 6,
    portRangeMin := some 22, portRangeMax := some 22 }

/-- Two concrete bulk rules whose remote creations both succeed. -/
def bulkRuleA : SgRule := { id := "ra", securityGroupId := "sg1" }

/-- Second concrete bulk rule. -/
def bulkRuleB : SgRule := { id := "rb", securityGroupId := "sg1" }

/-- A concrete controller state for the security-group deletion claims. -/
def sgState0 : SgState :=
  { chains := ["OS_SG_g1_INGRESS", "OS_SG_g1_EGRESS"], ipAddrGroups := ["g1"] }

/-- A concrete associated floating IP. -/
def fip0 : Fip :=
  { id := "f1", floatingIpAddress := "200.0.0.5", fixedIpAddress := "10.0.0.2",
    routerId := "r1", portId := some "p1" }

/-- The same floating IP rebound to a different port. -/
def fip1 : Fip :=
  { id := "f1", floatingIpAddress := "200.0.0.5", fixedIpAddress := "10.0.0.3",
    routerId := "r1", portId := some "p2" }

/-- A concrete link-port environment. -/
def env0 : Env := { linkPortId := fun _ => "lp1", linkPortPeerId := fun _ => "lpp1" }

/-- A concrete empty controller state. -/
def mido0 : MidoState := { providerRoutes := [], chains := fun _ => [] }

/-! ## Section of theorems.  Helper lemmas come first, then one theorem per
claim (with its witness or counterexample where required). -/

theorem insertAt_zero {α : Type} (r : α) (xs : List α) : insertAt 0 r xs = r :: xs := rfl

theorem insertAt_length {α : Type} (L : List α) (x d : α) :
    insertAt L.length x (L ++ [d]) = L ++ [x, d] := by
  induction L with
  | nil => rfl
  | cons a as ih => simpa [insertAt, List.length_cons] using ih

theorem take_len_append {α : Type} (p x : List α) : (p ++ x).take p.length = p := by
  induction p with
  | nil => rfl
  | cons a as ih => simp [List.take, ih]

theorem take_append_le {α : Type} (n : Nat) (p x : List α) (h : n ≤ p.length) :
    (p ++ x).take n = p.take n := List.take_append_of_le_length h

theorem append_clash {α : Type} {p q x y : List α} (h : p ++ x = q ++ y)
    (hl : p.length ≤ q.length) : p = q.take p.length := by
  have h1 : (p ++ x).take p.length = p := take_len_append p x
  have h2 : (q ++ y).take p.length = q.take p.length := take_append_le _ q y hl
  rw [h, h2] at h1
  exact h1.symm

theorem tmpl_clash {α : Type} (p1 s1 p2 s2 : List α)
    (h12 : p1 ≠ p2.take p1.length) (h21 : p2 ≠ p1.take p2.length) :
    ∀ i j : List α, p1 ++ (i ++ s1) ≠ p2 ++ (j ++ s2) := by
  intro i j h
  rcases Nat.le_total p1.length p2.length with hl | hl
  · exact h12 (append_clash h hl)
  · exact h21 (append_clash h.symm hl)

theorem tmpl_suffix_clash {α : Type} (p s1 s2 : List α)
    (h12 : s1.reverse ≠ s2.reverse.take s1.reverse.length)
    (h21 : s2.reverse ≠ s1.reverse.take s2.reverse.length) :
    ∀ i j : List α, p ++ (i ++ s1) ≠ p ++ (j ++ s2) := by
  intro i j h
  have h0 : i ++ s1 = j ++ s2 := by simpa using h
  have hr : s1.reverse ++ i.reverse = s2.reverse ++ j.reverse := by
    have := congrArg List.reverse h0
    simpa [List.reverse_append] using this
  rcases Nat.le_total s1.reverse.length s2.reverse.length with hl | hl
  · exact h12 (append_clash hr hl)
  · exact h21 (append_clash hr.symm hl)

theorem tmpl_inj {α : Type} (p s : List α) (i j : List α)
    (h : p ++ (i ++ s) = p ++ (j ++ s)) : i = j := by
  have h0 : i ++ s = j ++ s := by simpa using h
  have hr : s.reverse ++ i.reverse = s.reverse ++ j.reverse := by
    have := congrArg List.reverse h0
    simpa [List.reverse_append] using this
  have : i.reverse = j.reverse := by simpa using hr
  exact List.reverse_injective this

theorem string_data_inj {a b : String} (h : a.data = b.data) : a = b := by
  cases a; cases b; exact congrArg String.mk h

theorem string_data_append (a b : String) : (a ++ b).data = a.data ++ b.data := rfl

theorem nameFor_data (r : Role) (i : String) :
    (nameFor r i).data = rolePre r ++ (i.data ++ roleSuf r) := by
  cases r <;>
    simp [nameFor, nat_chain_names, sg_chain_names, port_chain_names,
      sg_ip_addr_group_name, rolePre, roleSuf, string_data_append]

theorem nameFor_inj (r1 r2 : Role) (i j : String)
    (h : nameFor r1 i = nameFor r2 j) : r1 = r2 ∧ i = j := by
  have hd := congrArg String.data h
  rw [nameFor_data, nameFor_data] at hd
  cases r1 <;> cases r2 <;>
    first
      | exact ⟨rfl, string_data_inj (tmpl_inj _ _ _ _ hd)⟩
      | exact absurd hd (tmpl_clash _ _ _ _ (by decide) (by decide) _ _)
      | exact absurd hd (tmpl_suffix_clash _ _ _ (by decide) (by decide) _ _)

/-- Claim C3: the name-derivation functions are pure and deterministic, the
same role and id always yield the same name, distinct ids yield distinct names
within a role, and no id pair collides across two distinct roles. -/
theorem name_derivation_injective :
    ∀ (r1 r2 : Role) (i j : String), nameFor r1 i = nameFor r2 j ↔ (r1 = r2 ∧ i = j) := by
  intro r1 r2 i j
  constructor
  · exact nameFor_inj r1 r2 i j
  · rintro ⟨rfl, rfl⟩
    rfl

theorem pre_ne_post (a b : String) :
    (nat_chain_names a).preRouting ≠ (nat_chain_names b).postRouting := by
  intro h
  have hr := (nameFor_inj Role.natPreRouting Role.natPostRouting a b h).1
  exact Role.noConfusion hr

/-! Helper lemmas describing the shape of the chains built by
`initialize_port_chains` and `add_sg_jumps_to_port_chains`. -/

theorem add_chain_rule_head (c : List Rule) (a : ChainRuleArgs) :
    add_chain_rule c a (some 1) = mk_chain_rule a :: c := rfl

theorem add_chain_rule_at_len (L : List Rule) (d : Rule) (a : ChainRuleArgs) :
    add_chain_rule (L ++ [d]) a (some (L.length + 1)) = L ++ [mk_chain_rule a, d] := by
  rw [add_chain_rule, Option.getD_some, Nat.add_sub_cancel, insertAt_length]

theorem ip_spoof_foldl (ctx : Ctx) (ips : List FixedIp) (c : List Rule) :
    ips.foldl (fun c fip => add_chain_rule c (ip_spoof_args ctx fip) (some 1)) c
      = (ips.reverse.map (fun fip => mk_chain_rule (ip_spoof_args ctx fip))) ++ c := by
  induction ips generalizing c with
  | nil => simp
  | cons a as ih =>
    rw [List.foldl_cons, add_chain_rule_head, ih]
    simp

theorem jumps_foldl_pairs (ccs : List (MChain × MChain)) (L1 L2 : List Rule) (d1 d2 : Rule) :
    ccs.foldl (fun p cc => add_sg_jumps_to_port_chains p.1 p.2 cc.1 cc.2)
        (L1 ++ [d1], L2 ++ [d2])
      = (L1 ++ ccs.map (fun cc => mk_chain_rule (jump_args cc.1)) ++ [d1],
         L2 ++ ccs.map (fun cc => mk_chain_rule (jump_args cc.2)) ++ [d2]) := by
  induction ccs generalizing L1 L2 with
  | nil => simp
  | cons a as ih =>
    have h1 : add_sg_jumps_to_port_chains (L1 ++ [d1]) (L2 ++ [d2]) a.1 a.2
        = ((L1 ++ [mk_chain_rule (jump_args a.1)]) ++ [d1],
           (L2 ++ [mk_chain_rule (jump_args a.2)]) ++ [d2]) := by
      simp [add_sg_jumps_to_port_chains, add_chain_rule_at_len]
    rw [List.foldl_cons, h1, ih]
    simp

theorem jumps_foldl (f : String → MChain × MChain) (sgIds : List String)
    (L1 L2 : List Rule) (d1 d2 : Rule) :
    sgIds.foldl
        (fun p sgId => add_sg_jumps_to_port_chains p.1 p.2 (f sgId).1 (f sgId).2)
        (L1 ++ [d1], L2 ++ [d2])
      = (L1 ++ sgIds.map (fun s => mk_chain_rule (jump_args (f s).1)) ++ [d1],
         L2 ++ sgIds.map (fun s => mk_chain_rule (jump_args (f s).2)) ++ [d2]) := by
  induction sgIds generalizing L1 L2 with
  | nil => simp
  | cons a as ih =>
    have h1 : add_sg_jumps_to_port_chains (L1 ++ [d1]) (L2 ++ [d2]) (f a).1 (f a).2
        = ((L1 ++ [mk_chain_rule (jump_args (f a).1)]) ++ [d1],
           (L2 ++ [mk_chain_rule (jump_args (f a).2)]) ++ [d2]) := by
      simp [add_sg_jumps_to_port_chains, add_chain_rule_at_len]
    rw [List.foldl_cons, h1, ih]
    simp

theorem getLast?_snoc {α : Type} (L : List α) (d : α) : (L ++ [d]).getLast? = some d := by
  simp [List.getLast?_append]

theorem getLast?_ends {α : Type} (a : α) (x y : List α) (d : α) :
    (a :: (x ++ (y ++ [d]))).getLast? = some d := by
  have h : a :: (x ++ (y ++ [d])) = (a :: (x ++ y)) ++ [d] := by simp
  rw [h]
  exact getLast?_snoc _ _

/-- The full shape of the two chains produced by `_initialize_port_chains` on
freshly created (empty) chains: in the inbound chain the IP anti-spoofing
drops come first (in reverse fixed-ip order), then the MAC anti-spoofing drop,
then the reverse-flow accept, then one jump per security group, and the
terminal drop-non-ARP rule last; the outbound chain is the reverse-flow
accept, the jumps, and the terminal drop rule. -/
theorem initialize_port_chains_eq (ctx : Ctx) (port : Port) (sgIds : List String)
    (sgChainsOf : String → MChain × MChain) :
    initialize_port_chains ctx port [] [] sgIds sgChainsOf
      = (port.fixedIps.reverse.map (fun fip => mk_chain_rule (ip_spoof_args ctx fip))
          ++ [mk_chain_rule (mac_spoof_args port.macAddress),
              mk_chain_rule return_flow_args]
          ++ sgIds.map (fun s => mk_chain_rule (jump_args (sgChainsOf s).1))
          ++ [mk_chain_rule drop_non_arp_args],
         [mk_chain_rule return_flow_args]
          ++ sgIds.map (fun s => mk_chain_rule (jump_args (sgChainsOf s).2))
          ++ [mk_chain_rule drop_non_arp_args]) := by
  simp only [initialize_port_chains]
  show sgIds.foldl _
      (port.fixedIps.foldl
        (fun c fip => add_chain_rule c (ip_spoof_args ctx fip) (some 1))
        [mk_chain_rule (mac_spoof_args port.macAddress), mk_chain_rule return_flow_args,
          mk_chain_rule drop_non_arp_args],
       [mk_chain_rule return_flow_args, mk_chain_rule drop_non_arp_args]) = _
  rw [ip_spoof_foldl]
  have h := jumps_foldl sgChainsOf sgIds
    (port.fixedIps.reverse.map (fun fip => mk_chain_rule (ip_spoof_args ctx fip))
      ++ [mk_chain_rule (mac_spoof_args port.macAddress), mk_chain_rule return_flow_args])
    [mk_chain_rule return_flow_args]
    (mk_chain_rule drop_non_arp_args) (mk_chain_rule drop_non_arp_args)
  simp only [List.append_assoc, List.cons_append, List.nil_append,
    List.singleton_append] at h ⊢
  exact h

/-- Claim C1 (counterexample): the claim puts the reverse-flow accept first in
the inbound port chain, but on a concrete VIF port with one fixed IP the first
rule of the initialized inbound chain is the IP anti-spoofing drop, not the
reverse-flow accept. -/
theorem port_chain_order_counterexample :
    (initialize_port_chains ctx0 port0 [] [] ["sg1"] sgch0).1.head?
        = some (mk_chain_rule (ip_spoof_args ctx0 ⟨"s1", "10.0.0.2"⟩)) ∧
      (initialize_port_chains ctx0 port0 [] [] ["sg1"] sgch0).1.head?
        ≠ some (mk_chain_rule return_flow_args) := by
  constructor
  · rfl
  · decide

/-- Claim C1 (amended): after `_initialize_port_chains` the evaluation order of
the inbound chain is anti-spoofing drops first (IP-spoof drops in reverse
fixed-ip order, then the MAC-spoof drop), then the reverse-flow accept, then
the security-group jump rules, and the terminal drop-non-ARP rule last; the
outbound chain order is reverse-flow accept, then jump rules, then the terminal
drop rule. -/
theorem port_chain_final_order (ctx : Ctx) (port : Port) (sgIds : List String)
    (sgChainsOf : String → MChain × MChain) :
    initialize_port_chains ctx port [] [] sgIds sgChainsOf
      = (port.fixedIps.reverse.map (fun fip => mk_chain_rule (ip_spoof_args ctx fip))
          ++ [mk_chain_rule (mac_spoof_args port.macAddress),
              mk_chain_rule return_flow_args]
          ++ sgIds.map (fun s => mk_chain_rule (jump_args (sgChainsOf s).1))
          ++ [mk_chain_rule drop_non_arp_args],
         [mk_chain_rule return_flow_args]
          ++ sgIds.map (fun s => mk_chain_rule (jump_args (sgChainsOf s).2))
          ++ [mk_chain_rule drop_non_arp_args]) :=
  initialize_port_chains_eq ctx port sgIds sgChainsOf

/-- Claim C4: the terminal drop-non-ARP rule is the last-evaluated rule of both
port chains after initialization, and stays last after any further sequence of
security-group jump insertions, each of which lands at the penultimate
position. -/
theorem terminal_drop_rule_last (ctx : Ctx) (port : Port) (sgIds : List String)
    (sgChainsOf : String → MChain × MChain) (more : List (MChain × MChain)) :
    (more.foldl (fun p cc => add_sg_jumps_to_port_chains p.1 p.2 cc.1 cc.2)
        (initialize_port_chains ctx port [] [] sgIds sgChainsOf)).1.getLast?
        = some (mk_chain_rule drop_non_arp_args) ∧
      (more.foldl (fun p cc => add_sg_jumps_to_port_chains p.1 p.2 cc.1 cc.2)
          (initialize_port_chains ctx port [] [] sgIds sgChainsOf)).2.getLast?
        = some (mk_chain_rule drop_non_arp_args) := by
  rw [initialize_port_chains_eq]
  have h := jumps_foldl_pairs more
    (port.fixedIps.reverse.map (fun fip => mk_chain_rule (ip_spoof_args ctx fip))
      ++ [mk_chain_rule (mac_spoof_args port.macAddress), mk_chain_rule return_flow_args]
      ++ sgIds.map (fun s => mk_chain_rule (jump_args (sgChainsOf s).1)))
    ([mk_chain_rule return_flow_args]
      ++ sgIds.map (fun s => mk_chain_rule (jump_args (sgChainsOf s).2)))
    (mk_chain_rule drop_non_arp_args) (mk_chain_rule drop_non_arp_args)
  simp only [List.append_assoc] at h ⊢
  rw [h]
  constructor <;> simp [List.getLast?_append, getLast?_ends]

/-- Claim C5: `_create_accept_chain_rule` adds exactly one accept rule to the
chain selected by the rule direction; for egress the remote group and prefix
become the destination match and forward-flow matching is set, for ingress
they become the source match and forward-flow matching is not set; the rule
carries the property `OS_SG_RULE_ID` mapped to the logical rule id. -/
theorem accept_rule_translation (r : SgRule) (chain : List Rule) :
    (create_accept_chain_rule r chain).2.length = chain.length + 1 ∧
    (create_accept_chain_rule r chain).1 ∈ (create_accept_chain_rule r chain).2 ∧
    (create_accept_chain_rule r chain).1.action = "accept" ∧
    (create_accept_chain_rule r chain).1.properties = [(OS_SG_RULE_KEY, r.id)] ∧
    (r.direction = "egress" →
      accept_chain_name r = some (sg_chain_names r.securityGroupId).egress ∧
      (create_accept_chain_rule r chain).1.matchForwardFlow = true ∧
      (create_accept_chain_rule r chain).1.ipAddrGroupDst = r.remoteGroupId ∧
      (create_accept_chain_rule r chain).1.nwDstAddr
        = r.remoteIpPrefix.map (fun s => (net_addr s).1) ∧
      (create_accept_chain_rule r chain).1.nwDstLength
        = r.remoteIpPrefix.map (fun s => (net_addr s).2) ∧
      (create_accept_chain_rule r chain).1.ipAddrGroupSrc = none ∧
      (create_accept_chain_rule r chain).1.nwSrcAddr = none) ∧
    (r.direction = "ingress" →
      accept_chain_name r = some (sg_chain_names r.securityGroupId).ingress ∧
      (create_accept_chain_rule r chain).1.matchForwardFlow = false ∧
      (create_accept_chain_rule r chain).1.ipAddrGroupSrc = r.remoteGroupId ∧
      (create_accept_chain_rule r chain).1.nwSrcAddr
        = r.remoteIpPrefix.map (fun s => (net_addr s).1) ∧
      (create_accept_chain_rule r chain).1.nwSrcLength
        = r.remoteIpPrefix.map (fun s => (net_addr s).2) ∧
      (create_accept_chain_rule r chain).1.ipAddrGroupDst = none ∧
      (create_accept_chain_rule r chain).1.nwDstAddr = none) := by
  have hchain : (create_accept_chain_rule r chain).2
      = (create_accept_chain_rule r chain).1 :: chain := rfl
  refine ⟨by rw [hchain]; rfl, by rw [hchain]; exact List.mem_cons_self _ _, ?_, ?_, ?_, ?_⟩
  · by_cases hdir : r.direction = "egress" <;>
      simp [create_accept_chain_rule, accept_rule_args, mk_chain_rule, hdir]
  · by_cases hdir : r.direction = "egress" <;>
      simp [create_accept_chain_rule, accept_rule_args, mk_chain_rule, hdir]
  · intro hdir
    simp [create_accept_chain_rule, accept_rule_args, mk_chain_rule, hdir,
      accept_chain_name, SgChainNames.byDirection]
  · intro hdir
    have hne : ¬ r.direction = "egress" := by rw [hdir]; decide
    simp [create_accept_chain_rule, accept_rule_args, mk_chain_rule, hdir, hne,
      accept_chain_name, SgChainNames.byDirection]

/-- Claim C5 (witness): the theorem applied to a concrete egress rule and a
concrete ingress rule. -/
theorem accept_rule_translation_witness :
    (sgRuleEg0.direction = "egress" ∧
      (create_accept_chain_rule sgRuleEg0 []).1.matchForwardFlow = true) ∧
    (sgRuleIn0.direction = "ingress" ∧
      (create_accept_chain_rule sgRuleIn0 []).1.matchForwardFlow = false) :=
  ⟨⟨rfl, ((accept_rule_translation sgRuleEg0 []).2.2.2.2.1 rfl).2.1⟩,
   ⟨rfl, ((accept_rule_translation sgRuleIn0 []).2.2.2.2.2 rfl).2.1⟩⟩

/-- Claim C2 (code bug evaluation): in `create_security_group_rule_bulk`, with
two rules whose remote creations both succeed, the loop still issues
`remove_chain_rule` calls — it removes every rule created so far right after
each successful creation, on the success path, with no failure anywhere. -/
theorem bulk_rule_success_path_removes :
    create_security_group_rule_bulk [bulkRuleA, bulkRuleB] (fun _ => false)
      = (none,
         [BulkEffect.createAcceptRule "ra", BulkEffect.removeChainRule "ra",
          BulkEffect.createAcceptRule "rb", BulkEffect.removeChainRule "ra",
          BulkEffect.removeChainRule "rb"]) := rfl

/-- Claim C7 (counterexample): a security group named `default` with an active
port binding, deleted by a non-admin caller, fails with the
cannot-remove-default error, not with the security-group-in-use error the
claim requires for every group with an active binding. -/
theorem delete_sg_in_use_counterexample :
    (delete_security_group (some { id := "g1", name := "default" }) false ["b1"]
        sgState0).1 = some SgDeleteError.securityGroupCannotRemoveDefault ∧
      some SgDeleteError.securityGroupCannotRemoveDefault
        ≠ some SgDeleteError.securityGroupInUse := by
  exact ⟨rfl, by decide⟩

/-- Claim C7 (amended): deleting a security group with at least one active
port binding always fails and leaves the controller state unchanged (no chain
and no IP-address-group deleted); the error is security-group-in-use, except
that for the default group deleted by a non-admin the cannot-remove-default
error is raised first. -/
theorem delete_sg_in_use_amended (sg : SecurityGroupRec) (isAdmin : Bool)
    (bindings : List String) (st : SgState) (hb : bindings ≠ []) :
    (delete_security_group (some sg) isAdmin bindings st).2 = st ∧
    (delete_security_group (some sg) isAdmin bindings st).1.isSome = true ∧
    (¬ (sg.name = "default" ∧ isAdmin = false) →
      (delete_security_group (some sg) isAdmin bindings st).1
        = some SgDeleteError.securityGroupInUse) := by
  by_cases hdef : sg.name = "default" ∧ isAdmin = false <;>
    simp [delete_security_group, hdef, hb]

/-- Claim C7 (witness): the amended theorem applied to a non-default group
with one binding. -/
theorem delete_sg_in_use_amended_witness :
    (["b1"] : List String) ≠ [] ∧
    (delete_security_group (some { id := "g1", name := "web" }) false ["b1"]
        sgState0).1 = some SgDeleteError.securityGroupInUse :=
  ⟨by decide,
   (delete_sg_in_use_amended { id := "g1", name := "web" } false ["b1"] sgState0
      (by decide)).2.2 (by decide)⟩

/-- Claim C8 (counterexample): when the remote chain creation of
`create_router` fails, the caller does not receive the original remote error;
the handler tries to load the not-yet-inserted router row and the caller
receives the router-not-found error instead. -/
theorem create_router_counterexample :
    (create_router "r1" [] false true false).1
        = Except.error (CrError.routerNotFound "r1") ∧
      (Except.error (CrError.routerNotFound "r1") : Except CrError String)
        ≠ Except.error chain_creation_error := by
  refine ⟨rfl, ?_⟩
  simp [chain_creation_error]

/-- Claim C8 (amended): failures after the local insert propagate the original
remote error to the caller once compensation ran — a failing gateway setup
deletes the MidoNet router and re-raises the gateway error — but when the
remote chain creation fails, the original error is swallowed and the caller
receives a router-not-found error from the status-update attempt instead. -/
theorem create_router_error_paths (midoId : String) (db : List String)
    (hasGw : Bool) (hnot : midoId ∉ db) :
    (create_router midoId db true false true).1 = Except.error gateway_setup_error ∧
    CrEffect.deleteMidoRouter midoId ∈ (create_router midoId db true false true).2 ∧
    (create_router midoId db hasGw true false).1
      = Except.error (CrError.routerNotFound midoId) ∧
    (create_router midoId db hasGw true false).1 ≠ Except.error chain_creation_error := by
  refine ⟨?_, ?_, ?_, ?_⟩ <;>
    simp [create_router, hnot, chain_creation_error, gateway_setup_error]

/-- Claim C8 (witness): the amended theorem applied to a concrete router id
and an empty local store. -/
theorem create_router_error_paths_witness :
    ("r9" : String) ∉ ([] : List String) ∧
    (create_router "r9" [] true false true).1 = Except.error gateway_setup_error :=
  ⟨by decide, (create_router_error_paths "r9" [] true (by decide)).1⟩

theorem retry_go_all_none {α : Type} (delay : Nat) (f : Nat → Option α) :
    ∀ (n i calls : Nat), (∀ j, j < n → f (i + j) = none) →
      retry_go delay f n i calls = (none, calls + n) := by
  intro n
  induction n with
  | zero => intro i calls _; rfl
  | succ m ih =>
    intro i calls h
    have h0 : f i = none := by simpa using h 0 (Nat.succ_pos m)
    have h1 : ∀ j, j < m → f (i + 1 + j) = none := by
      intro j hj
      have hlt : j + 1 < m + 1 := by omega
      have := h (j + 1) hlt
      have e : i + (j + 1) = i + 1 + j := by omega
      rwa [e] at this
    simp only [retry_go, h0]
    rw [ih (i + 1) (calls + 1) h1]
    have e2 : calls + 1 + m = calls + (m + 1) := by omega
    rw [e2]

theorem retry_go_first_some {α : Type} (delay : Nat) (f : Nat → Option α) :
    ∀ (n k i calls : Nat) (v : α), k < n → (∀ j, j < k → f (i + j) = none) →
      f (i + k) = some v →
      retry_go delay f n i calls = (some v, calls + k + 1) := by
  intro n
  induction n with
  | zero => intro k i calls v hk _ _; exact absurd hk (Nat.not_lt_zero k)
  | succ m ih =>
    intro k i calls v hk hnone hsome
    cases k with
    | zero =>
      have h0 : f i = some v := by simpa using hsome
      simp [retry_go, h0]
    | succ k1 =>
      have h0 : f i = none := by simpa using hnone 0 (Nat.succ_pos k1)
      have h1 : ∀ j, j < k1 → f (i + 1 + j) = none := by
        intro j hj
        have hlt : j + 1 < k1 + 1 := by omega
        have := hnone (j + 1) hlt
        have e : i + (j + 1) = i + 1 + j := by omega
        rwa [e] at this
      have h2 : f (i + 1 + k1) = some v := by
        have e : i + (k1 + 1) = i + 1 + k1 := by omega
        rwa [e] at hsome
      simp only [retry_go, h0]
      rw [ih k1 (i + 1) (calls + 1) v (by omega) h1 h2]
      have e2 : calls + 1 + k1 + 1 = calls + (k1 + 1) + 1 := by omega
      rw [e2]

/-- Claim C9: the DHCP-address wait is a bounded retry loop with the fixed
policy of 5 attempts and 1-second delay; it returns the address as soon as a
query sees it; when the address never appears within the bounded attempts, it
returns no value after exactly 5 calls, and `add_router_interface` still
completes, warning and skipping the metadata route while performing the
remaining linking work. -/
theorem dhcp_retry_policy (f : Nat → Option String) :
    DHCP_RETRY_ATTEMPTS = 5 ∧ DHCP_RETRY_DELAY = 1 ∧
    (∀ k v, k < DHCP_RETRY_ATTEMPTS → (∀ j, j < k → f j = none) → f k = some v →
      get_dhcp_port_ip f = (some v, k + 1)) ∧
    ((∀ i, i < DHCP_RETRY_ATTEMPTS → f i = none) →
      get_dhcp_port_ip f = (none, DHCP_RETRY_ATTEMPTS) ∧
      (add_router_interface f).1 = true ∧
      AriEffect.warnNoDhcpPort ∈ (add_router_interface f).2 ∧
      AriEffect.addSubnetRoute ∈ (add_router_interface f).2 ∧
      AriEffect.addMetadataRoute ∉ (add_router_interface f).2) := by
  refine ⟨rfl, rfl, ?_, ?_⟩
  · intro k v hk hnone hsome
    have h := retry_go_first_some DHCP_RETRY_DELAY f DHCP_RETRY_ATTEMPTS k 0 0 v hk
      (by intro j hj; simpa using hnone j hj) (by simpa using hsome)
    simpa [get_dhcp_port_ip, retryloop] using h
  · intro hall
    have h := retry_go_all_none DHCP_RETRY_DELAY f DHCP_RETRY_ATTEMPTS 0 0
      (by intro j hj; simpa using hall j hj)
    have hres : get_dhcp_port_ip f = (none, DHCP_RETRY_ATTEMPTS) := by
      simpa [get_dhcp_port_ip, retryloop] using h
    have hmgw : (get_dhcp_port_ip f).1 = none := by rw [hres]
    refine ⟨hres, rfl, ?_, ?_, ?_⟩ <;>
      simp [add_router_interface, link_bridge_to_router, hmgw]

/-- Claim C9 (witness): the theorem applied to a query that never sees the
address. -/
theorem dhcp_retry_policy_witness :
    get_dhcp_port_ip (fun _ => none) = (none, DHCP_RETRY_ATTEMPTS) ∧
    AriEffect.addMetadataRoute ∉ (add_router_interface (fun _ => none)).2 :=
  ⟨((dhcp_retry_policy (fun _ => none)).2.2.2 (fun _ _ => rfl)).1,
   ((dhcp_retry_policy (fun _ => none)).2.2.2 (fun _ _ => rfl)).2.2.2.2⟩

/-- Claim C10: updating a floating IP with a new port id equal to the
currently bound non-null port id performs no controller-side change: the
state is returned untouched. -/
theorem update_floatingip_same_port_noop (env : Env) (oldFip newFip : Fip)
    (st : MidoState) (p : String)
    (hop : oldFip.portId = some p) (hnp : newFip.portId = some p) :
    update_floatingip env oldFip newFip st = st := by
  simp [update_floatingip, hop, hnp]

/-- Claim C10 (witness): the theorem applied to a concrete floating IP bound
to the same port on both sides. -/
theorem update_floatingip_same_port_noop_witness :
    fip0.portId = some "p1" ∧ update_floatingip env0 fip0 fip0 mido0 = mido0 :=
  ⟨rfl, update_floatingip_same_port_noop env0 fip0 fip0 mido0 "p1" rfl rfl⟩

/-! Helper lemmas for the floating-IP association claims. -/

theorem countP_filter_not_zero {α : Type} (M : List α) (p g : α → Bool)
    (h : ∀ x, p x = true → g x = true) :
    (M.filter (fun x => ! g x)).countP p = 0 := by
  rw [List.countP_eq_zero]
  intro a ha hpa
  have hmem := List.of_mem_filter ha
  rw [h a hpa] at hmem
  simp at hmem

theorem countP_snoc {α : Type} (L : List α) (p : α → Bool) (x : α) :
    (L ++ [x]).countP p = L.countP p + (if p x then 1 else 0) := by
  simp [List.countP_append, List.countP_cons]

theorem countP_subpred_zero {α : Type} (L : List α) (p q : α → Bool)
    (himp : ∀ x, p x = true → q x = true) (hq : L.countP q = 0) :
    L.countP p = 0 := by
  rw [List.countP_eq_zero] at hq ⊢
  intro a ha hpa
  exact hq a ha (himp a hpa)

theorem disassoc_fip_routes (fip : Fip) (st : MidoState) :
    (disassoc_fip fip st).providerRoutes =
      (st.providerRoutes.filter
        (fun r => ! (r.dstAddr == fip.floatingIpAddress && r.dstLen == 32))).filter
        (fun r => ! (r.dstAddr == fip.floatingIpAddress)) := rfl

theorem assoc_fip_routes (env : Env) (fip : Fip) (st : MidoState) :
    (assoc_fip env fip st).providerRoutes =
      st.providerRoutes ++ [fip_route env fip] := rfl

theorem disassoc_fip_chains (fip : Fip) (st : MidoState) (n : String) :
    (disassoc_fip fip st).chains n =
      if n = (nat_chain_names fip.routerId).preRouting
          ∨ n = (nat_chain_names fip.routerId).postRouting then
        (st.chains n).filter (fun r => ! prop_is OS_FLOATING_IP_RULE_KEY fip.id r)
      else st.chains n := by
  have hpp : (nat_chain_names fip.routerId).preRouting
      ≠ (nat_chain_names fip.routerId).postRouting := pre_ne_post _ _
  by_cases h1 : n = (nat_chain_names fip.routerId).preRouting <;>
    by_cases h2 : n = (nat_chain_names fip.routerId).postRouting
  · exact absurd (h1.symm.trans h2) hpp
  · subst h1
    simp [disassoc_fip, remove_nat_rules, remove_rules_by_property,
      remove_static_route, remove_route_from_provider, hpp, Ne.symm hpp]
  · subst h2
    simp [disassoc_fip, remove_nat_rules, remove_rules_by_property,
      remove_static_route, remove_route_from_provider, hpp, Ne.symm hpp]
  · simp [disassoc_fip, remove_nat_rules, remove_rules_by_property,
      remove_static_route, remove_route_from_provider, h1, h2]

theorem assoc_fip_chains (env : Env) (fip : Fip) (st : MidoState) (n : String) :
    (assoc_fip env fip st).chains n =
      if n = (nat_chain_names fip.routerId).postRouting then
        st.chains n ++ [snat_rule env fip]
      else if n = (nat_chain_names fip.routerId).preRouting then
        st.chains n ++ [dnat_rule env fip]
      else st.chains n := by
  have hpp : (nat_chain_names fip.routerId).preRouting
      ≠ (nat_chain_names fip.routerId).postRouting := pre_ne_post _ _
  by_cases h1 : n = (nat_chain_names fip.routerId).preRouting <;>
    by_cases h2 : n = (nat_chain_names fip.routerId).postRouting
  · exact absurd (h1.symm.trans h2) hpp
  · subst h1
    simp [assoc_fip, add_nat_rules, add_static_nat, add_route_to_provider,
      dnat_rule, snat_rule, hpp, Ne.symm hpp]
  · subst h2
    simp [assoc_fip, add_nat_rules, add_static_nat, add_route_to_provider,
      dnat_rule, snat_rule, hpp, Ne.symm hpp]
  · simp [assoc_fip, add_nat_rules, add_static_nat, add_route_to_provider,
      h1, h2]

/-- Claim C6: disassociating a floating IP and re-associating it to a
different port in one `update_floatingip` call leaves exactly one
provider-router /32 route to the floating address and exactly one NAT-rule
pair tagged with the floating-IP id — a single tagged DNAT rule in the
pre-routing chain and a single tagged SNAT rule in the post-routing chain of
the router of the floating IP, and no tagged rule anywhere else. -/
theorem fip_reassociation_exactly_one (env : Env) (oldF newF : Fip)
    (st : MidoState) (p q : String)
    (hop : oldF.portId = some p) (hnp : newF.portId = some q) (hpq : p ≠ q)
    (hid : newF.id = oldF.id)
    (haddr : newF.floatingIpAddress = oldF.floatingIpAddress)
    (hclean : ∀ n : String, n ≠ (nat_chain_names oldF.routerId).preRouting →
      n ≠ (nat_chain_names oldF.routerId).postRouting →
      nat_count st n oldF.id = 0) :
    fip_route_count (update_floatingip env oldF newF st) newF.floatingIpAddress = 1 ∧
    nat_count (update_floatingip env oldF newF st)
      (nat_chain_names newF.routerId).preRouting newF.id = 1 ∧
    nat_count (update_floatingip env oldF newF st)
      (nat_chain_names newF.routerId).postRouting newF.id = 1 ∧
    dnat_count (update_floatingip env oldF newF st)
      (nat_chain_names newF.routerId).preRouting newF.id = 1 ∧
    snat_count (update_floatingip env oldF newF st)
      (nat_chain_names newF.routerId).postRouting newF.id = 1 ∧
    (∀ n : String, n ≠ (nat_chain_names newF.routerId).preRouting →
      n ≠ (nat_chain_names newF.routerId).postRouting →
      nat_count (update_floatingip env oldF newF st) n newF.id = 0) := by
  have hupd : update_floatingip env oldF newF st
      = assoc_fip env newF (disassoc_fip oldF st) := by
    simp [update_floatingip, hop, hnp, hpq]
  rw [hupd]
  have hpnN : (nat_chain_names newF.routerId).preRouting
      ≠ (nat_chain_names newF.routerId).postRouting := pre_ne_post _ _
  have hDroutes : (disassoc_fip oldF st).providerRoutes.countP
      (fun r => r.dstAddr == newF.floatingIpAddress && r.dstLen == 32) = 0 := by
    rw [disassoc_fip_routes]
    apply countP_filter_not_zero
    intro x hx
    rw [Bool.and_eq_true] at hx
    rw [← haddr]
    exact hx.1
  have hDzero : ∀ n : String,
      ((disassoc_fip oldF st).chains n).countP
        (prop_is OS_FLOATING_IP_RULE_KEY newF.id) = 0 := by
    intro n
    rw [disassoc_fip_chains]
    by_cases h1 : n = (nat_chain_names oldF.routerId).preRouting ∨
        n = (nat_chain_names oldF.routerId).postRouting
    · rw [if_pos h1]
      apply countP_filter_not_zero
      intro x hx
      rw [hid] at hx
      exact hx
    · rw [if_neg h1]
      push_neg at h1
      have hc := hclean n h1.1 h1.2
      unfold nat_count at hc
      rw [hid]
      exact hc
  have hA : fip_route_count (assoc_fip env newF (disassoc_fip oldF st))
      newF.floatingIpAddress = 1 := by
    unfold fip_route_count
    rw [assoc_fip_routes, countP_snoc, hDroutes]
    simp [fip_route]
  have hB : nat_count (assoc_fip env newF (disassoc_fip oldF st))
      (nat_chain_names newF.routerId).preRouting newF.id = 1 := by
    unfold nat_count
    rw [assoc_fip_chains, if_neg hpnN, if_pos rfl, countP_snoc, hDzero]
    simp [dnat_rule, prop_is, List.lookup]
  have hC : nat_count (assoc_fip env newF (disassoc_fip oldF st))
      (nat_chain_names newF.routerId).postRouting newF.id = 1 := by
    unfold nat_count
    rw [assoc_fip_chains, if_pos rfl, countP_snoc, hDzero]
    simp [snat_rule, prop_is, List.lookup]
  have hD : dnat_count (assoc_fip env newF (disassoc_fip oldF st))
      (nat_chain_names newF.routerId).preRouting newF.id = 1 := by
    unfold dnat_count
    rw [assoc_fip_chains, if_neg hpnN, if_pos rfl, countP_snoc]
    rw [countP_subpred_zero _ _ (prop_is OS_FLOATING_IP_RULE_KEY newF.id)
      (fun x hx => by rw [Bool.and_eq_true] at hx; exact hx.1) (hDzero _)]
    simp [dnat_rule, prop_is, List.lookup]
  have hE : snat_count (assoc_fip env newF (disassoc_fip oldF st))
      (nat_chain_names newF.routerId).postRouting newF.id = 1 := by
    unfold snat_count
    rw [assoc_fip_chains, if_pos rfl, countP_snoc]
    rw [countP_subpred_zero _ _ (prop_is OS_FLOATING_IP_RULE_KEY newF.id)
      (fun x hx => by rw [Bool.and_eq_true] at hx; exact hx.1) (hDzero _)]
    simp [snat_rule, prop_is, List.lookup]
  have hF : ∀ n : String, n ≠ (nat_chain_names newF.routerId).preRouting →
      n ≠ (nat_chain_names newF.routerId).postRouting →
      nat_count (assoc_fip env newF (disassoc_fip oldF st)) n newF.id = 0 := by
    intro n h1 h2
    unfold nat_count
    rw [assoc_fip_chains, if_neg h2, if_neg h1]
    exact hDzero n
  exact ⟨hA, hB, hC, hD, hE, hF⟩

/-- Claim C6 (witness): the theorem applied to a concrete floating IP moved
from port p1 to port p2 over an empty controller state. -/
theorem fip_reassociation_exactly_one_witness :
    fip0.portId = some "p1" ∧ fip1.portId = some "p2" ∧
    fip_route_count (update_floatingip env0 fip0 fip1 mido0)
      fip1.floatingIpAddress = 1 ∧
    nat_count (update_floatingip env0 fip0 fip1 mido0)
      (nat_chain_names fip1.routerId).preRouting fip1.id = 1 :=
  ⟨rfl, rfl,
   (fip_reassociation_exactly_one env0 fip0 fip1 mido0 "p1" "p2" rfl rfl
      (by decide) rfl rfl (fun n h1 h2 => rfl)).1,
   (fip_reassociation_exactly_one env0 fip0 fip1 mido0 "p1" "p2" rfl rfl
      (by decide) rfl rfl (fun n h1 h2 => rfl)).2.1⟩
